import Mathlib

/-!
Verification development for the sf-oauth-webserver-demo repository.

The repository contains two implementations of the OAuth web-server flow:
an inline one in `src/server.js` (the registered Express routes) and a
modular one in `src/salesforce/api.js` (`initiateOAuthFlow`,
`handleOAuthCallback`, `requireAuth`, `logout`).  Both are embedded below as
pure Lean functions; request handlers become functions from the session
state, the query parameters and the outcome of the outbound HTTP call to
the resulting session state and response.
-/

namespace SfOauth

/-! ## Bytes and 32-bit arithmetic

The crypto primitives the source uses (crypto.createHash with sha256,
digest with base64url, Buffer UTF-8 encoding) are embedded concretely.
Bytes are natural numbers below 256; 32-bit words are naturals reduced
modulo 2^32 where overflow matters.
-/

def w32 (n : Nat) : Nat := n % 4294967296

/-- Rotate-right of a 32-bit word by `n` places. -/
def rotr (n x : Nat) : Nat := w32 ((x >>> n) ||| (x <<< (32 - n)))

/-- Big-endian byte expansion: `toBytesBE k n` is the `k` low-order bytes of
`n`, most significant first. -/
def toBytesBE : Nat → Nat → List Nat
  | 0, _ => []
  | k + 1, n => toBytesBE k (n >>> 8) ++ [n % 256]

/-! ## UTF-8 encoding of strings

Node hashes the verifier string as its UTF-8 bytes; the embedding encodes
each scalar value by the standard UTF-8 rules. -/

def charUtf8 (c : Char) : List Nat :=
  let n := c.toNat
  if n < 128 then [n]
  else if n < 2048 then [192 ||| (n >>> 6), 128 ||| (n &&& 63)]
  else if n < 65536 then
    [224 ||| (n >>> 12), 128 ||| ((n >>> 6) &&& 63), 128 ||| (n &&& 63)]
  else
    [240 ||| (n >>> 18), 128 ||| ((n >>> 12) &&& 63),
     128 ||| ((n >>> 6) &&& 63), 128 ||| (n &&& 63)]

def strBytes (s : String) : List Nat := (s.data.map charUtf8).flatten

/-! ## SHA-256 (FIPS 180-4), as computed by crypto.createHash of the source -/

def sha256K : List Nat :=
  [1116352408, 1899447441, 3049323471, 3921009573, 961987163,
   1508970993, 2453635748, 2870763221, 3624381080, 310598401,
   607225278, 1426881987, 1925078388, 2162078206, 2614888103,
   3248222580, 3835390401, 4022224774, 264347078, 604807628,
   770255983, 1249150122, 1555081692, 1996064986, 2554220882,
   2821834349, 2952996808, 3210313671, 3336571891, 3584528711,
   113926993, 338241895, 666307205, 773529912, 1294757372,
   1396182291, 1695183700, 1986661051, 2177026350, 2456956037,
   2730485921, 2820302411, 3259730800, 3345764771, 3516065817,
   3600352804, 4094571909, 275423344, 430227734, 506948616,
   659060556, 883997877, 958139571, 1322822218, 1537002063,
   1747873779, 1955562222, 2024104815, 2227730452, 2361852424,
   2428436474, 2756734187, 3204031479, 3329325298]

def sha256H0 : List Nat :=
  [1779033703, 3144134277, 1013904242, 2773480762,
   1359893119, 2600822924, 528734635, 1541459225]

/-- Message padding: append 0x80, zero bytes up to 56 mod 64, then the
bit length as an 8-byte big-endian integer. -/
def padMessage (msg : List Nat) : List Nat :=
  msg ++ [128] ++ List.replicate ((119 - msg.length % 64) % 64) 0
      ++ toBytesBE 8 (8 * msg.length)

/-- Split a byte list into 64-byte blocks; the fuel argument (the list
length at the outer call) makes the recursion structural, so the
function reduces definitionally. -/
def toBlocksAux : Nat → List Nat → List (List Nat)
  | 0, _ => []
  | _ + 1, [] => []
  | fuel + 1, a :: t => (a :: t).take 64 :: toBlocksAux fuel ((a :: t).drop 64)

def toBlocks (l : List Nat) : List (List Nat) := toBlocksAux l.length l

/-- Big-endian 32-bit words from a byte list. -/
def bytesToWords : List Nat → List Nat
  | a :: b :: c :: d :: rest =>
      (a * 16777216 + b * 65536 + c * 256 + d) :: bytesToWords rest
  | _ => []

def sSig0 (x : Nat) : Nat := (rotr 7 x) ^^^ (rotr 18 x) ^^^ (x >>> 3)

def sSig1 (x : Nat) : Nat := (rotr 17 x) ^^^ (rotr 19 x) ^^^ (x >>> 10)

def bSig0 (x : Nat) : Nat := (rotr 2 x) ^^^ (rotr 13 x) ^^^ (rotr 22 x)

def bSig1 (x : Nat) : Nat := (rotr 6 x) ^^^ (rotr 11 x) ^^^ (rotr 25 x)

def chFn (x y z : Nat) : Nat := (x &&& y) ^^^ ((4294967295 - w32 x) &&& z)

def majFn (x y z : Nat) : Nat := (x &&& y) ^^^ (x &&& z) ^^^ (y &&& z)

/-- One step of the message-schedule extension: append word
`sigma1 w[n-2] + w[n-7] + sigma0 w[n-15] + w[n-16]`. -/
def scheduleStep (w : List Nat) : List Nat :=
  let n := w.length
  w ++ [w32 (sSig1 (w.getD (n - 2) 0) + w.getD (n - 7) 0
             + sSig0 (w.getD (n - 15) 0) + w.getD (n - 16) 0)]

def fullSchedule (w : List Nat) : List Nat := Nat.repeat scheduleStep 48 w

/-- One compression round on the 8-word state. -/
def roundFn (st : List Nat) (kw : Nat × Nat) : List Nat :=
  match st with
  | [a, b, c, d, e, f, g, h] =>
      let t1 := w32 (h + bSig1 e + chFn e f g + kw.1 + kw.2)
      let t2 := w32 (bSig0 a + majFn a b c)
      [w32 (t1 + t2), a, b, c, w32 (d + t1), e, f, g]
  | _ => st

def processBlock (h : List Nat) (block : List Nat) : List Nat :=
  let w := fullSchedule (bytesToWords block)
  let st := (w.zip sha256K).foldl roundFn h
  (h.zip st).map (fun p => w32 (p.1 + p.2))

/-- SHA-256 digest of a byte list, as a list of 32 bytes. -/
def sha256 (msg : List Nat) : List Nat :=
  (((toBlocks (padMessage msg)).foldl processBlock sha256H0).map
    (toBytesBE 4)).flatten

/-! ## Base64 encodings

Calling digest with base64url in Node produces the URL-safe alphabet
without padding.  Both the URL-safe and the standard alphabet are defined
via a common sextet expansion of the byte stream. -/

def toSextets : List Nat → List Nat
  | a :: b :: c :: rest =>
      (a >>> 2) :: (((a &&& 3) <<< 4) ||| (b >>> 4))
        :: (((b &&& 15) <<< 2) ||| (c >>> 6)) :: (c &&& 63) :: toSextets rest
  | [a, b] => [a >>> 2, ((a &&& 3) <<< 4) ||| (b >>> 4), (b &&& 15) <<< 2]
  | [a] => [a >>> 2, (a &&& 3) <<< 4]
  | [] => []

def b64urlAlphabet : List Char :=
  "ABCDEFGHIJKLMNOPQRSTUVWXYZabcdefghijklmnopqrstuvwxyz0123456789-_".data

def b64stdAlphabet : List Char :=
  "ABCDEFGHIJKLMNOPQRSTUVWXYZabcdefghijklmnopqrstuvwxyz0123456789+/".data

def b64urlIdx (n : Nat) : Char := b64urlAlphabet.getD n 'A'

def b64stdIdx (n : Nat) : Char := b64stdAlphabet.getD n 'A'

/-- Number of padding characters standard base64 appends. -/
def b64PadLen (l : List Nat) : Nat :=
  match l.length % 3 with
  | 1 => 2
  | 2 => 1
  | _ => 0

/-- URL-safe unpadded base64 of a byte list (the base64url encoding the
Node digest call produces). -/
def b64urlEncode (l : List Nat) : List Char := (toSextets l).map b64urlIdx

/-- Standard padded base64 of a byte list. -/
def b64stdEncode (l : List Nat) : List Char :=
  (toSextets l).map b64stdIdx ++ List.replicate (b64PadLen l) '='

/-! ## The PKCE generator of the source

The function generateCodeChallenge appears identically in src/server.js
and in the modular src/salesforce/api.js: it hashes the verifier with
SHA-256 via crypto.createHash and emits the digest in base64url form. -/

def generateCodeChallenge (verifier : String) : String :=
  String.mk (b64urlEncode (sha256 (strBytes verifier)))

/-- Modelled from the spec wording only, for the refinement claim C8: the
URL-safe unpadded base64 encoding of the SHA-256 digest of the UTF-8
bytes of the verifier, read as standard base64 with `+` and `/` replaced
by `-` and `_` and the `=` padding stripped. -/
def specGenerateChallenge (v : String) : String :=
  String.mk ((((b64stdEncode (sha256 (strBytes v))).map
    (fun c => if c = '+' then '-' else if c = '/' then '_' else c)).filter
    (fun c => c != '=')))

/-! ## Percent-encoding

The source interpolates encodeURIComponent output into the authorization
URL; the embedding implements the same encoding (unreserved characters
kept, everything else percent-encoded from its UTF-8 bytes). -/

def hexDigit (n : Nat) : Char := "0123456789ABCDEF".data.getD n '0'

def percentByte (b : Nat) : List Char := ['%', hexDigit (b / 16), hexDigit (b % 16)]

def uriUnreserved (c : Char) : Bool :=
  (decide ('A' ≤ c) && decide (c ≤ 'Z')) ||
  (decide ('a' ≤ c) && decide (c ≤ 'z')) ||
  (decide ('0' ≤ c) && decide (c ≤ '9')) ||
  c == '-' || c == '_' || c == '.' || c == '!' || c == '~' || c == '*' ||
  c == Char.ofNat 39 || c == '(' || c == ')'

def encodeURIComponent (s : String) : String :=
  String.mk ((s.data.map (fun c =>
    if uriUnreserved c then [c] else ((charUtf8 c).map percentByte).flatten)).flatten)

/-! ## Data model

Session state as the Express session bag holds it, configuration as read
from the environment, and the callback query parameters.  Optional
strings model JavaScript values that may be undefined; the function
truthy mirrors the JavaScript falsiness tests the source performs
(undefined and the empty string are falsy). -/

def truthy : Option String → Bool
  | none => false
  | some s => s != ""

/-- Expression of the form a or-else b from the source
(error_description or error): the first operand when truthy, otherwise
the second. -/
def orTruthy : Option String → String → String
  | some s, d => if s != "" then s else d
  | none, d => d

structure Config where
  clientId : Option String
  clientSecret : Option String
  callbackUrl : Option String
  loginUrl : String
  scopes : Option String
deriving DecidableEq

structure Session where
  codeVerifier : Option String
  oauthState : Option String
  accessToken : Option String
  instanceUrl : Option String
deriving DecidableEq

def Session.empty : Session := ⟨none, none, none, none⟩

structure CbQuery where
  code : Option String
  error : Option String
  errorDescription : Option String
  state : Option String
deriving DecidableEq

/-- Body of a token-endpoint response the source destructures into
access_token and instance_url; either field may be absent in a
malformed body. -/
structure TokenBody where
  access_token : Option String
  instance_url : Option String
deriving DecidableEq

/-- Outcome of the outbound token-exchange call: axios resolves on a
success status (with whatever body came back) and throws otherwise; the
thrown error carries an optional upstream error_description and a
message. -/
inductive ExchangeOutcome where
  | success (body : TokenBody)
  | failure (errorDescription : Option String) (message : String)
deriving DecidableEq

/-- Outcome of an authenticated upstream call (user info or lead
creation): resolved value, an HTTP error response with a status and
optional data, or a network error with only a message. -/
inductive Upstream where
  | ok (val : String)
  | errResp (status : Nat) (data : Option String)
  | netErr (message : String)
deriving DecidableEq

/-- HTTP responses the handlers produce. -/
inductive Resp where
  | redirect (location : String)
  | send (status : Nat) (body : String)
  | jsonErr (status : Nat) (message : String) (details : Option String)
  | jsonLeadOk (id : String)
  | jsonUserInfo (data : String)
  | jsonLogoutOk
deriving DecidableEq

def Resp.status : Resp → Nat
  | .redirect _ => 302
  | .send s _ => s
  | .jsonErr s _ _ => s
  | _ => 200

def respLocation : Resp → String
  | .redirect l => l
  | _ => ""

/-! ## Initiation handlers

Randomness is passed in: the caller supplies the strings that
crypto.randomBytes would have produced, so the handlers are pure. -/

/-- Route GET /auth/salesforce of src/server.js (the registered inline
route): stores only the code verifier and builds an authorization URL
without scope and without state. -/
def serverAuthSalesforce (cfg : Config) (s : Session) (rndVerifier : String) :
    Session × Resp :=
  if !(truthy cfg.clientId) || !(truthy cfg.callbackUrl) then
    (s, .send 500 "Missing Salesforce configuration. Please check your .env file.")
  else
    let codeChallenge := generateCodeChallenge rndVerifier
    let authUrl := cfg.loginUrl ++ "/services/oauth2/authorize?" ++
      "response_type=code&" ++
      "client_id=" ++ encodeURIComponent (cfg.clientId.getD "") ++ "&" ++
      "redirect_uri=" ++ encodeURIComponent (cfg.callbackUrl.getD "") ++ "&" ++
      "code_challenge=" ++ codeChallenge ++ "&" ++
      "code_challenge_method=S256"
    ({ s with codeVerifier := some rndVerifier }, .redirect authUrl)

def defaultScopes : String := "openid profile email refresh_token api"

/-- Function initiateOAuthFlow of src/salesforce/api.js (the modular
variant): stores the verifier and the anti-forgery state and builds the
full authorization URL including scope and state. -/
def initiateOAuthFlow (cfg : Config) (s : Session) (rndVerifier rndState : String) :
    Session × Resp :=
  if !(truthy cfg.clientId) || !(truthy cfg.callbackUrl) then
    (s, .send 500 "Missing Salesforce configuration. Please check your .env file.")
  else
    let codeChallenge := generateCodeChallenge rndVerifier
    let scope := match cfg.scopes with
      | some sc => if sc != "" then sc else defaultScopes
      | none => defaultScopes
    let authUrl := cfg.loginUrl ++ "/services/oauth2/authorize?" ++
      "response_type=code&" ++
      "client_id=" ++ encodeURIComponent (cfg.clientId.getD "") ++ "&" ++
      "redirect_uri=" ++ encodeURIComponent (cfg.callbackUrl.getD "") ++ "&" ++
      "scope=" ++ encodeURIComponent scope ++ "&" ++
      "state=" ++ encodeURIComponent rndState ++ "&" ++
      "code_challenge=" ++ codeChallenge ++ "&" ++
      "code_challenge_method=S256"
    ({ s with codeVerifier := some rndVerifier, oauthState := some rndState },
     .redirect authUrl)

/-! ## Callback handlers

The outbound token-exchange POST is abstracted by the ExchangeOutcome
argument; the Boolean exchangeAttempted in the result records whether
control reached that call. -/

structure CallbackResult where
  session : Session
  response : Resp
  exchangeAttempted : Bool
deriving DecidableEq

/-- Route GET /oauth/callback of src/server.js (the registered inline
route): error short-circuit, missing-code check, session-verifier check,
then the exchange.  It reads no state parameter and performs no
anti-forgery comparison; on success it deletes only codeVerifier, and on
failure it leaves the session untouched. -/
def serverOauthCallback (s : Session) (q : CbQuery) (outcome : ExchangeOutcome) :
    CallbackResult :=
  if truthy q.error then
    ⟨s, .send 400 ("Authorization failed: " ++ orTruthy q.errorDescription (q.error.getD "")),
     false⟩
  else if !(truthy q.code) then
    ⟨s, .send 400 "Authorization code not found", false⟩
  else if !(truthy s.codeVerifier) then
    ⟨s, .send 400 "Session expired. Please try again.", false⟩
  else
    match outcome with
    | .success body =>
        ⟨{ s with accessToken := body.access_token, instanceUrl := body.instance_url,
                  codeVerifier := none },
         .redirect "/app", true⟩
    | .failure desc msg =>
        ⟨s, .send 500 ("Authentication failed: " ++ orTruthy desc msg), true⟩

/-- Function handleOAuthCallback of src/salesforce/api.js (the modular
variant): as the inline route, plus the anti-forgery comparison of the
state query parameter against the stored oauthState before the exchange;
on success it deletes both codeVerifier and oauthState. -/
def handleOAuthCallback (s : Session) (q : CbQuery) (outcome : ExchangeOutcome) :
    CallbackResult :=
  if truthy q.error then
    ⟨s, .send 400 ("Authorization failed: " ++ orTruthy q.errorDescription (q.error.getD "")),
     false⟩
  else if !(truthy q.code) then
    ⟨s, .send 400 "Authorization code not found", false⟩
  else if !(truthy s.codeVerifier) then
    ⟨s, .send 400 "Session expired. Please try again.", false⟩
  else if !(truthy s.oauthState) || q.state != s.oauthState then
    ⟨s, .send 400 "Invalid OAuth state. Please try again.", false⟩
  else
    match outcome with
    | .success body =>
        ⟨{ s with accessToken := body.access_token, instanceUrl := body.instance_url,
                  codeVerifier := none, oauthState := none },
         .redirect "/app", true⟩
    | .failure desc msg =>
        ⟨s, .send 500 ("Authentication failed: " ++ orTruthy desc msg), true⟩

/-! ## Authenticated API routes and the auth guard -/

/-- The auth-guard predicate: the session holds a truthy access token
(requireAuth in api.js and the inline guards in server.js). -/
def requireAuth (s : Session) : Bool := truthy s.accessToken

structure ApiResult where
  response : Resp
  networkCalled : Bool
deriving DecidableEq

/-- Route GET /api/user of src/server.js: 401 when the session lacks an
access token; otherwise forwards the upstream result, mapping any
upstream failure to a 500. -/
def apiUser (s : Session) (upstream : Upstream) : ApiResult :=
  if !(truthy s.accessToken) then
    ⟨.jsonErr 401 "Not authenticated" none, false⟩
  else
    match upstream with
    | .ok data => ⟨.jsonUserInfo data, true⟩
    | .errResp _ _ => ⟨.jsonErr 500 "Failed to fetch user info" none, true⟩
    | .netErr _ => ⟨.jsonErr 500 "Failed to fetch user info" none, true⟩

structure LeadBody where
  firstName : Option String
  lastName : Option String
  company : Option String
  email : Option String
  phone : Option String
deriving DecidableEq

/-- Route POST /api/lead of src/server.js: auth check first, then the
required-field validation of lastName and company, then the upstream
POST; any upstream failure maps to a 500 carrying the upstream data as
details. -/
def apiLead (s : Session) (body : LeadBody) (upstream : Upstream) : ApiResult :=
  if !(truthy s.accessToken) then
    ⟨.jsonErr 401 "Not authenticated" none, false⟩
  else if !(truthy body.lastName) || !(truthy body.company) then
    ⟨.jsonErr 400 "Last Name and Company are required" none, false⟩
  else
    match upstream with
    | .ok id => ⟨.jsonLeadOk id, true⟩
    | .errResp _ d => ⟨.jsonErr 500 "Failed to create lead" d, true⟩
    | .netErr _ => ⟨.jsonErr 500 "Failed to create lead" none, true⟩

/-- Route POST /api/logout of src/server.js (and logout of api.js): the
session-store destroy callback logs the error when one is reported and
responds with the success JSON in every case.  The second component is
the log output. -/
def logoutRoute (destroyErr : Option String) : Resp × List String :=
  match destroyErr with
  | some e => (.jsonLogoutOk, ["Error destroying session: " ++ e])
  | none => (.jsonLogoutOk, [])

/-! ## Session-level state machine

For the lifecycle invariant the three session-mutating operations are
collected into a step function on the session alone (responses
discarded); logout destroys the whole session. -/

inductive Op where
  | initiate (rndVerifier rndState : String)
  | callback (q : CbQuery) (outcome : ExchangeOutcome)
  | logoutOp
deriving DecidableEq

def stepSession (cfg : Config) (s : Session) : Op → Session
  | .initiate rv rs => (initiateOAuthFlow cfg s rv rs).1
  | .callback q o => (handleOAuthCallback s q o).session
  | .logoutOp => Session.empty

def runSession (cfg : Config) : Session → List Op → Session
  | s, [] => s
  | s, op :: rest => runSession cfg (stepSession cfg s op) rest

/-- The mutual-exclusion invariant of the spec: the session never holds
verifier or state together with an access token. -/
def VerifierTokenExclusive (s : Session) : Prop :=
  (s.codeVerifier = none ∧ s.oauthState = none) ∨ s.accessToken = none

instance : DecidablePred VerifierTokenExclusive := fun s =>
  inferInstanceAs (Decidable ((s.codeVerifier = none ∧ s.oauthState = none) ∨
    s.accessToken = none))

/-- Trace condition: initiation only ever happens on a session that holds
no access token. -/
def NoInitWhileAuthed (cfg : Config) : Session → List Op → Prop
  | _, [] => True
  | s, op :: rest =>
      (∀ rv rs, op = Op.initiate rv rs → s.accessToken = none) ∧
      NoInitWhileAuthed cfg (stepSession cfg s op) rest

/-! ## Substring search used to state URL-parameter claims -/

def startsW : List Char → List Char → Bool
  | _, [] => true
  | [], _ :: _ => false
  | a :: ha, b :: hb => a == b && startsW ha hb

def hasSubstr : List Char → List Char → Bool
  | [], pat => startsW [] pat
  | c :: t, pat => startsW (c :: t) pat || hasSubstr t pat

def urlHas (url pat : String) : Bool := hasSubstr url.data pat.data

/-- Concrete configuration used by witnesses and counterexamples. -/
def cfgDemo : Config :=
  { clientId := some "cid", clientSecret := some "secret",
    callbackUrl := some "https://app.example.com/oauth/callback",
    loginUrl := "https://login.salesforce.com", scopes := none }

/-! ## Lemmas: base64url refines stripped standard base64 -/

theorem b64urlIdx_spec (n : Nat) :
    b64urlIdx n =
      (if b64stdIdx n = '+' then '-' else if b64stdIdx n = '/' then '_'
       else b64stdIdx n) := by
  by_cases h : n < 64
  · exact (by decide :
      ∀ m, m < 64 → b64urlIdx m =
        (if b64stdIdx m = '+' then '-' else if b64stdIdx m = '/' then '_'
         else b64stdIdx m)) n h
  · have hlu : b64urlAlphabet.length = 64 := rfl
    have hls : b64stdAlphabet.length = 64 := rfl
    have hu : b64urlAlphabet.getD n 'A' = 'A' := List.getD_eq_default _ 'A' (by omega)
    have hs : b64stdAlphabet.getD n 'A' = 'A' := List.getD_eq_default _ 'A' (by omega)
    simp only [b64urlIdx, b64stdIdx, hu, hs]
    decide

theorem b64urlIdx_ne_pad (n : Nat) : b64urlIdx n ≠ '=' := by
  by_cases h : n < 64
  · exact (by decide : ∀ m, m < 64 → b64urlIdx m ≠ '=') n h
  · have hlu : b64urlAlphabet.length = 64 := rfl
    have hu : b64urlAlphabet.getD n 'A' = 'A' := List.getD_eq_default _ 'A' (by omega)
    simp only [b64urlIdx, hu]
    decide

theorem filter_replicate_pad (k : Nat) :
    List.filter (fun c => c != '=') (List.replicate k '=') = [] := by
  induction k with
  | zero => rfl
  | succ k ih =>
      rw [List.replicate_succ, List.filter_cons]
      simp [ih]

theorem b64url_refines_std (l : List Nat) :
    ((b64stdEncode l).map
      (fun c => if c = '+' then '-' else if c = '/' then '_' else c)).filter
      (fun c => c != '=') = b64urlEncode l := by
  unfold b64stdEncode b64urlEncode
  rw [List.map_append, List.filter_append]
  have hmap : (List.map b64stdIdx (toSextets l)).map
      (fun c => if c = '+' then '-' else if c = '/' then '_' else c)
      = List.map b64urlIdx (toSextets l) := by
    rw [List.map_map]
    exact List.map_congr_left (fun a _ => (b64urlIdx_spec a).symm)
  have hrep : (List.replicate (b64PadLen l) '=').map
      (fun c => if c = '+' then '-' else if c = '/' then '_' else c)
      = List.replicate (b64PadLen l) '=' := by
    simp [List.map_replicate]
  rw [hmap, hrep, filter_replicate_pad, List.append_nil]
  apply List.filter_eq_self.mpr
  intro c hc
  obtain ⟨a, -, rfl⟩ := List.mem_map.mp hc
  simpa using b64urlIdx_ne_pad a

/-- C8: generateCodeChallenge is a pure deterministic function equal to
the URL-safe unpadded base64 encoding of the SHA-256 digest of the
UTF-8 bytes of the verifier, so the same verifier always yields the same
challenge; the last conjunct checks the embedding against the PKCE test
vector of RFC 7636. -/
theorem generateCodeChallenge_spec :
    (∀ v : String, generateCodeChallenge v = specGenerateChallenge v) ∧
    (∀ v w : String, v = w → generateCodeChallenge v = generateCodeChallenge w) ∧
    generateCodeChallenge "dBjftJeZ4CVP-mB92K27uhbUJU1p1r_wW1gFWFOEjXk" =
      "E9Melhoa2OwvFrEMTJguCHaoeK1t8URWbuGJSstw-cM" := by
  refine ⟨fun v => ?_, fun v w h => h ▸ rfl, by decide⟩
  exact (congrArg String.mk (b64url_refines_std _)).symm

/-- C8 witness: the refinement and the determinism conjunct instantiated
at concrete verifiers. -/
theorem generateCodeChallenge_spec_witness :
    generateCodeChallenge "dBjftJeZ4CVP-mB92K27uhbUJU1p1r_wW1gFWFOEjXk" =
      specGenerateChallenge "dBjftJeZ4CVP-mB92K27uhbUJU1p1r_wW1gFWFOEjXk" ∧
    generateCodeChallenge "abc" = generateCodeChallenge "abc" :=
  ⟨generateCodeChallenge_spec.1 _, generateCodeChallenge_spec.2.1 "abc" "abc" rfl⟩

/-! ## C1: the served callback route performs no anti-forgery check -/

/-- C1: on a callback carrying a code and a live session verifier whose
state parameter is absent while the session stores an oauthState, the
registered inline route of src/server.js still attempts the token
exchange and does not answer 400, whereas the modular handleOAuthCallback
fails with the 400 state-mismatch response before any exchange.  This
exhibits the divergence of the served route from the claimed behavior. -/
theorem serverCallback_skips_state_check :
    (serverOauthCallback ⟨some "v", some "st", none, none⟩
        ⟨some "abc", none, none, none⟩
        (.failure none "network down")).exchangeAttempted = true ∧
    (serverOauthCallback ⟨some "v", some "st", none, none⟩
        ⟨some "abc", none, none, none⟩
        (.failure none "network down")).response.status ≠ 400 ∧
    (handleOAuthCallback ⟨some "v", some "st", none, none⟩
        ⟨some "abc", none, none, none⟩
        (.failure none "network down")).exchangeAttempted = false ∧
    (handleOAuthCallback ⟨some "v", some "st", none, none⟩
        ⟨some "abc", none, none, none⟩
        (.failure none "network down")).response.status = 400 := by
  decide

/-! ## C2: verifier/state and access token exclusivity -/

theorem vte_step (cfg : Config) (s : Session) (op : Op)
    (hInv : VerifierTokenExclusive s)
    (hInit : ∀ rv rs, op = Op.initiate rv rs → s.accessToken = none) :
    VerifierTokenExclusive (stepSession cfg s op) := by
  cases op with
  | initiate rv rs =>
      have hTok : s.accessToken = none := hInit rv rs rfl
      simp only [stepSession, initiateOAuthFlow]
      split
      · exact hInv
      · right
        simp [hTok]
  | callback q o =>
      simp only [stepSession, handleOAuthCallback]
      split
      · exact hInv
      · split
        · exact hInv
        · split
          · exact hInv
          · split
            · exact hInv
            · cases o with
              | success body => exact Or.inl ⟨rfl, rfl⟩
              | failure d m => exact hInv
  | logoutOp => exact Or.inl ⟨rfl, rfl⟩

/-- C2 amended: the successful callback deletes the code verifier and
oauthState in the same step that sets the access token, and the
exclusivity invariant is preserved by every operation sequence in which
initiation is only invoked on a session holding no access token; an
initiate on an authenticated session, however, leaves the stored access
token in place, so verifier and token then coexist (see the
counterexample). -/
theorem vte_run (cfg : Config) (s : Session) (ops : List Op)
    (hInv : VerifierTokenExclusive s)
    (hGood : NoInitWhileAuthed cfg s ops) :
    VerifierTokenExclusive (runSession cfg s ops) := by
  induction ops generalizing s with
  | nil => exact hInv
  | cons op rest ih =>
      exact ih (stepSession cfg s op) (vte_step cfg s op hInv hGood.1) hGood.2

/-- C2 witness: a concrete run (initiate, then successful callback) along
which the invariant is established via the trace theorem. -/
theorem vte_run_witness :
    VerifierTokenExclusive (runSession cfgDemo Session.empty
      [Op.initiate "v1" "st1",
       Op.callback ⟨some "code", none, none, some "st1"⟩
         (.success ⟨some "tok", some "https://na1.example.com"⟩)]) :=
  vte_run cfgDemo Session.empty _ (Or.inr rfl)
    ⟨fun _ _ _ => rfl, fun _ _ h => Op.noConfusion h, trivial⟩

/-- C2 counterexample: initiate, successful callback, then initiate again
on the now-authenticated session — the final session stores a code
verifier and an oauthState together with the access token, refuting the
claim that no operation that writes a verifier leaves a stored access
token in place. -/
theorem vte_violation :
    ¬ VerifierTokenExclusive (runSession cfgDemo Session.empty
      [Op.initiate "v1" "st1",
       Op.callback ⟨some "code", none, none, some "st1"⟩
         (.success ⟨some "tok", some "https://na1.example.com"⟩),
       Op.initiate "v2" "st2"]) := by
  decide

/-! ## C4: query parameters of the authorization redirect URL -/

/-- C4: at a configured client id and callback URL, the redirect URL
built by the registered inline route GET /auth/salesforce carries the
response type, client id, redirect URI, code challenge and the S256
method, but contains neither a scope parameter nor a state parameter;
the modular initiateOAuthFlow URL carries all of them, including scope
and the freshly generated state.  This exhibits the divergence of the
served route from the claimed parameter list. -/
theorem inlineAuthUrl_missing_scope_state :
    urlHas (respLocation (serverAuthSalesforce cfgDemo Session.empty "v").2)
        "response_type=code" = true ∧
    urlHas (respLocation (serverAuthSalesforce cfgDemo Session.empty "v").2)
        "client_id=cid" = true ∧
    urlHas (respLocation (serverAuthSalesforce cfgDemo Session.empty "v").2)
        "redirect_uri=" = true ∧
    urlHas (respLocation (serverAuthSalesforce cfgDemo Session.empty "v").2)
        "code_challenge=" = true ∧
    urlHas (respLocation (serverAuthSalesforce cfgDemo Session.empty "v").2)
        "code_challenge_method=S256" = true ∧
    urlHas (respLocation (serverAuthSalesforce cfgDemo Session.empty "v").2)
        "scope=" = false ∧
    urlHas (respLocation (serverAuthSalesforce cfgDemo Session.empty "v").2)
        "state=" = false ∧
    urlHas (respLocation (initiateOAuthFlow cfgDemo Session.empty "v" "st123").2)
        "scope=" = true ∧
    urlHas (respLocation (initiateOAuthFlow cfgDemo Session.empty "v" "st123").2)
        "state=st123" = true ∧
    urlHas (respLocation (initiateOAuthFlow cfgDemo Session.empty "v" "st123").2)
        "code_challenge_method=S256" = true := by
  set_option maxRecDepth 4096 in decide

/-! ## C3: behaviour on token-exchange failure -/

/-- C3 amended: when the token-exchange call fails after all callback
checks pass, both callback variants respond 500 and leave the session
exactly as it was — the access token is not set, and the stored
codeVerifier and oauthState are NOT deleted. -/
theorem exchangeFailure_preserves_session (s : Session) (q : CbQuery)
    (desc : Option String) (msg : String) (es : String)
    (hErr : q.error = none) (hCode : truthy q.code = true)
    (hVer : truthy s.codeVerifier = true)
    (hState : s.oauthState = some es) (hEs : es ≠ "") (hq : q.state = some es) :
    handleOAuthCallback s q (.failure desc msg) =
      ⟨s, .send 500 ("Authentication failed: " ++ orTruthy desc msg), true⟩ ∧
    serverOauthCallback s q (.failure desc msg) =
      ⟨s, .send 500 ("Authentication failed: " ++ orTruthy desc msg), true⟩ := by
  have hEs' : (es != "") = true := by simpa using hEs
  have hc1 : truthy q.error = false := by rw [hErr]; rfl
  have hs : truthy s.oauthState = true := by rw [hState]; simp [truthy, hEs']
  have hqs : (q.state != s.oauthState) = false := by rw [hState, hq]; simp
  constructor
  · simp [handleOAuthCallback, hc1, hCode, hVer, hs, hqs]
  · simp [serverOauthCallback, hc1, hCode, hVer]

/-- C3 witness: concrete instantiation of the exchange-failure theorem. -/
theorem exchangeFailure_preserves_session_witness :
    handleOAuthCallback ⟨some "v", some "st", none, none⟩
        ⟨some "abc", none, none, some "st"⟩ (.failure none "timeout") =
      ⟨⟨some "v", some "st", none, none⟩,
       .send 500 ("Authentication failed: " ++ orTruthy none "timeout"), true⟩ ∧
    serverOauthCallback ⟨some "v", some "st", none, none⟩
        ⟨some "abc", none, none, some "st"⟩ (.failure none "timeout") =
      ⟨⟨some "v", some "st", none, none⟩,
       .send 500 ("Authentication failed: " ++ orTruthy none "timeout"), true⟩ :=
  exchangeFailure_preserves_session ⟨some "v", some "st", none, none⟩
    ⟨some "abc", none, none, some "st"⟩ none "timeout" "st"
    rfl rfl rfl rfl (by decide) rfl

/-- C3 counterexample: after a failed exchange the session still holds
the code verifier and the oauthState — the claimed deletion of the stale
verifier/state before responding does not happen. -/
theorem exchangeFailure_keeps_stale_verifier :
    (handleOAuthCallback ⟨some "v", some "st", none, none⟩
        ⟨some "abc", none, none, some "st"⟩
        (.failure none "timeout")).session.codeVerifier = some "v" ∧
    (handleOAuthCallback ⟨some "v", some "st", none, none⟩
        ⟨some "abc", none, none, some "st"⟩
        (.failure none "timeout")).session.oauthState = some "st" ∧
    (handleOAuthCallback ⟨some "v", some "st", none, none⟩
        ⟨some "abc", none, none, some "st"⟩
        (.failure none "timeout")).response.status = 500 := by
  decide

/-! ## C5: behaviour on a success-status token response -/

/-- C5 amended: a token-exchange response with a success HTTP status is
never rejected for being malformed — the callback stores whatever
access_token and instance_url fields the body carries (possibly absent),
deletes the verifier and state, and redirects to the authenticated view
in every case; with a malformed body the session then simply holds no
access token. -/
theorem callbackSuccess_stores_body (s : Session) (q : CbQuery)
    (body : TokenBody) (es : String)
    (hErr : q.error = none) (hCode : truthy q.code = true)
    (hVer : truthy s.codeVerifier = true)
    (hState : s.oauthState = some es) (hEs : es ≠ "") (hq : q.state = some es) :
    handleOAuthCallback s q (.success body) =
      ⟨{ s with accessToken := body.access_token,
                instanceUrl := body.instance_url,
                codeVerifier := none, oauthState := none },
       .redirect "/app", true⟩ := by
  have hEs' : (es != "") = true := by simpa using hEs
  have hc1 : truthy q.error = false := by rw [hErr]; rfl
  have hs : truthy s.oauthState = true := by rw [hState]; simp [truthy, hEs']
  have hqs : (q.state != s.oauthState) = false := by rw [hState, hq]; simp
  simp [handleOAuthCallback, hc1, hCode, hVer, hs, hqs]

/-- C5 witness: concrete instantiation of the success-path theorem with a
well-formed body. -/
theorem callbackSuccess_stores_body_witness :
    handleOAuthCallback ⟨some "v", some "st", none, none⟩
        ⟨some "abc", none, none, some "st"⟩
        (.success ⟨some "tok123", some "https://example.my.provider.com"⟩) =
      ⟨⟨none, none, some "tok123", some "https://example.my.provider.com"⟩,
       .redirect "/app", true⟩ :=
  callbackSuccess_stores_body ⟨some "v", some "st", none, none⟩
    ⟨some "abc", none, none, some "st"⟩
    ⟨some "tok123", some "https://example.my.provider.com"⟩ "st"
    rfl rfl rfl rfl (by decide) rfl

/-- C5 counterexample: a success-status response whose body lacks both
the access token and the instance URL is not answered with a 500
TokenExchangeFailed — the callback redirects to the authenticated view
with no access token stored, refuting the claim. -/
theorem malformedSuccessBody_still_redirects :
    (handleOAuthCallback ⟨some "v", some "st", none, none⟩
        ⟨some "abc", none, none, some "st"⟩
        (.success ⟨none, none⟩)).response = Resp.redirect "/app" ∧
    (handleOAuthCallback ⟨some "v", some "st", none, none⟩
        ⟨some "abc", none, none, some "st"⟩
        (.success ⟨none, none⟩)).response.status ≠ 500 ∧
    (handleOAuthCallback ⟨some "v", some "st", none, none⟩
        ⟨some "abc", none, none, some "st"⟩
        (.success ⟨none, none⟩)).session.accessToken = none := by
  decide

/-! ## C6: mapping of upstream failures in the authenticated routes -/

/-- C6 amended: every upstream failure of an authenticated lead-creation
or user-info request — whatever its upstream status, 401-equivalent or
not — is mapped to a 500 response; a 401 arises only from the local auth
guard when the session holds no access token. -/
theorem upstreamFailure_maps_to_500 (s : Session) (body : LeadBody)
    (st : Nat) (d : Option String) (m : String)
    (hAuth : truthy s.accessToken = true)
    (hLn : truthy body.lastName = true) (hCo : truthy body.company = true) :
    (apiLead s body (.errResp st d)).response =
      .jsonErr 500 "Failed to create lead" d ∧
    (apiLead s body (.netErr m)).response =
      .jsonErr 500 "Failed to create lead" none ∧
    (apiUser s (.errResp st d)).response =
      .jsonErr 500 "Failed to fetch user info" none ∧
    (apiUser s (.netErr m)).response =
      .jsonErr 500 "Failed to fetch user info" none := by
  simp [apiLead, apiUser, hAuth, hLn, hCo]

/-- C6 witness: concrete instantiation of the upstream-failure mapping. -/
theorem upstreamFailure_maps_to_500_witness :
    (apiLead ⟨none, none, some "tok", some "https://na1.example.com"⟩
        ⟨some "John", some "Doe", some "Acme", none, none⟩
        (.errResp 403 (some "FORBIDDEN"))).response =
      .jsonErr 500 "Failed to create lead" (some "FORBIDDEN") ∧
    (apiLead ⟨none, none, some "tok", some "https://na1.example.com"⟩
        ⟨some "John", some "Doe", some "Acme", none, none⟩
        (.netErr "socket hang up")).response =
      .jsonErr 500 "Failed to create lead" none ∧
    (apiUser ⟨none, none, some "tok", some "https://na1.example.com"⟩
        (.errResp 403 (some "FORBIDDEN"))).response =
      .jsonErr 500 "Failed to fetch user info" none ∧
    (apiUser ⟨none, none, some "tok", some "https://na1.example.com"⟩
        (.netErr "socket hang up")).response =
      .jsonErr 500 "Failed to fetch user info" none :=
  upstreamFailure_maps_to_500 ⟨none, none, some "tok", some "https://na1.example.com"⟩
    ⟨some "John", some "Doe", some "Acme", none, none⟩ 403 (some "FORBIDDEN")
    "socket hang up" rfl rfl rfl

/-- C6 counterexample: an upstream rejection that signals token
invalidity (HTTP 401 with INVALID_SESSION_ID) is answered with a 500,
not with the claimed 401, by both authenticated routes. -/
theorem upstream401_not_mapped_to_401 :
    (apiLead ⟨none, none, some "tok", some "https://na1.example.com"⟩
        ⟨none, some "Doe", some "Acme", none, none⟩
        (.errResp 401 (some "INVALID_SESSION_ID"))).response.status = 500 ∧
    (apiUser ⟨none, none, some "tok", some "https://na1.example.com"⟩
        (.errResp 401 (some "INVALID_SESSION_ID"))).response.status = 500 := by
  decide

/-! ## C7: auth check precedes field validation in POST /api/lead -/

/-- C7: a session without a truthy access token receives 401 from POST
/api/lead regardless of the body and with no upstream call; an
authenticated request missing lastName or company receives 400 with no
upstream call — so the auth check always precedes field validation and
validation failures never contact the network. -/
theorem apiLead_auth_then_validation :
    (∀ (s : Session) (body : LeadBody) (up : Upstream),
        truthy s.accessToken = false →
        apiLead s body up = ⟨.jsonErr 401 "Not authenticated" none, false⟩) ∧
    (∀ (s : Session) (body : LeadBody) (up : Upstream),
        truthy s.accessToken = true →
        (truthy body.lastName = false ∨ truthy body.company = false) →
        apiLead s body up =
          ⟨.jsonErr 400 "Last Name and Company are required" none, false⟩) := by
  constructor
  · intro s body up h
    simp [apiLead, h]
  · intro s body up h hv
    rcases hv with hv | hv <;> simp [apiLead, h, hv]

/-- C7 witness: an unauthenticated request with a complete body still
gets 401, and an authenticated request missing the required fields gets
400; neither touches the network. -/
theorem apiLead_auth_then_validation_witness :
    apiLead ⟨none, none, none, none⟩
        ⟨some "John", some "Doe", some "Acme", none, none⟩ (.ok "L1") =
      ⟨.jsonErr 401 "Not authenticated" none, false⟩ ∧
    apiLead ⟨none, none, some "tok", none⟩
        ⟨some "John", none, none, none, none⟩ (.ok "L1") =
      ⟨.jsonErr 400 "Last Name and Company are required" none, false⟩ :=
  ⟨apiLead_auth_then_validation.1 _ _ _ rfl,
   apiLead_auth_then_validation.2 _ _ _ rfl (Or.inl rfl)⟩

/-! ## C9: initiation on an authenticated session preserves the token -/

/-- C9: with client id and callback URL configured, initiating on a
session that holds a truthy access token overwrites only codeVerifier
(and oauthState in the modular variant) and leaves accessToken and
instanceUrl unchanged, so the auth guard still accepts the session. -/
theorem initiate_preserves_token (cfg : Config) (s : Session) (rv rs : String)
    (hCid : truthy cfg.clientId = true) (hCb : truthy cfg.callbackUrl = true)
    (hTok : truthy s.accessToken = true) :
    (initiateOAuthFlow cfg s rv rs).1 =
      { s with codeVerifier := some rv, oauthState := some rs } ∧
    (serverAuthSalesforce cfg s rv).1 = { s with codeVerifier := some rv } ∧
    requireAuth (initiateOAuthFlow cfg s rv rs).1 = true ∧
    requireAuth (serverAuthSalesforce cfg s rv).1 = true := by
  have h1 : (initiateOAuthFlow cfg s rv rs).1 =
      { s with codeVerifier := some rv, oauthState := some rs } := by
    simp [initiateOAuthFlow, hCid, hCb]
  have h2 : (serverAuthSalesforce cfg s rv).1 = { s with codeVerifier := some rv } := by
    simp [serverAuthSalesforce, hCid, hCb]
  refine ⟨h1, h2, ?_, ?_⟩
  · rw [h1]
    simpa [requireAuth] using hTok
  · rw [h2]
    simpa [requireAuth] using hTok

/-- C9 witness: concrete instantiation on an authenticated session. -/
theorem initiate_preserves_token_witness :
    (initiateOAuthFlow cfgDemo ⟨none, none, some "tok", some "https://na1.example.com"⟩
        "v" "st").1 =
      { Session.mk none none (some "tok") (some "https://na1.example.com") with
          codeVerifier := some "v", oauthState := some "st" } ∧
    (serverAuthSalesforce cfgDemo ⟨none, none, some "tok", some "https://na1.example.com"⟩
        "v").1 =
      { Session.mk none none (some "tok") (some "https://na1.example.com") with
          codeVerifier := some "v" } ∧
    requireAuth (initiateOAuthFlow cfgDemo
        ⟨none, none, some "tok", some "https://na1.example.com"⟩ "v" "st").1 = true ∧
    requireAuth (serverAuthSalesforce cfgDemo
        ⟨none, none, some "tok", some "https://na1.example.com"⟩ "v").1 = true :=
  initiate_preserves_token cfgDemo ⟨none, none, some "tok", some "https://na1.example.com"⟩
    "v" "st" rfl rfl rfl

/-! ## C10: logout is observationally infallible -/

/-- C10: the logout route responds with the success JSON whatever the
session-store destruction reports; a reported destruction error is
written to the log and swallowed, never surfaced to the client. -/
theorem logout_always_succeeds :
    (∀ e : Option String,
        (logoutRoute e).1 = Resp.jsonLogoutOk ∧ (logoutRoute e).1.status = 200) ∧
    (∀ m : String, (logoutRoute (some m)).2 = ["Error destroying session: " ++ m]) := by
  constructor
  · intro e
    cases e <;> simp [logoutRoute, Resp.status]
  · intro m
    simp [logoutRoute]

end SfOauth
